import Mathlib

/-!
Shallow embedding of the progress-tracking core of `coding-application-fe`:
the `TopicDetail` component (src/src/components/Navbar.js, second file in the
bundle) and the `Dashboard` page (src/src/pages/Dashboard.js).

JavaScript strings are modelled as Lean `String`s; the one string operation
the source uses beyond equality, `id.startsWith('temp-')`, is modelled on the
character list of the string (`charsStartWith`), which is the standard
"starts with" on sequences.  Numbers that the source only ever holds as
non-negative integers are `Nat`; the remote stats payload, whose fields are
arbitrary JSON numbers, uses `Int`.  `Math.round((c / t) * 100)` is modelled
as round-half-up of the exact rational `100 * c / t` (`jsRound100`).
-/

/-- A record of the `userProgress` array:
`{ problemId: { _id: ... }, completed: ..., _id: ... }`.
`problemId` stands for the nested `problemId._id` string and `recordId` for
the record's own `_id` field. -/
structure ProgressRecord where
  problemId : String
  completed : Bool
  recordId : String
deriving DecidableEq, Repr

/-- Model of JavaScript `startsWith` on character lists: the second list is
an initial segment of the first. -/
def charsStartWith : List Char → List Char → Bool
  | _, [] => true
  | [], _ :: _ => false
  | c :: s, p :: ps => (c == p) && charsStartWith s ps

/-- Model of `s.startsWith(p)` for JavaScript strings. -/
def jsStartsWith (s p : String) : Bool :=
  charsStartWith s.toList p.toList

/-- The temporary record id `` `temp-${problemId}-${Date.now()}` `` attached
to an optimistically inserted record (Navbar.js line 107); `now` stands for
`Date.now()`. -/
def mkTempId (problemId : String) (now : Nat) : String :=
  "temp-" ++ problemId ++ "-" ++ toString now

/-- TopicDetail's `isProblemCompleted` (Navbar.js lines 139-142):
`userProgress.find(p => p.problemId._id === problemId)`, returning the found
record's `completed` flag, and `false` when no record matches. -/
def isProblemCompleted (userProgress : List ProgressRecord)
    (problemId : String) : Bool :=
  match userProgress.find? (fun p => p.problemId == problemId) with
  | some progress => progress.completed
  | none => false

/-- The function mapped over `userProgress` by both the optimistic update
(Navbar.js lines 97-101) and the revert (lines 123-126):
`progress.problemId._id === problemId ? { ...progress, completed: c } :
progress`. -/
def setCompleted (problemId : String) (c : Bool)
    (progress : ProgressRecord) : ProgressRecord :=
  if progress.problemId == problemId then { progress with completed := c }
  else progress

/-- The optimistic-update function passed to `setUserProgress` (Navbar.js
lines 92-111): if a record for `problemId` exists, overwrite the `completed`
flag of every matching record; otherwise append a new record with a
temporary id. -/
def applyOptimistic (prev : List ProgressRecord) (problemId : String)
    (newCompletedState : Bool) (now : Nat) : List ProgressRecord :=
  match prev.find? (fun p => p.problemId == problemId) with
  | some _ => prev.map (setCompleted problemId newCompletedState)
  | none =>
      prev ++ [{ problemId := problemId, completed := newCompletedState,
                 recordId := mkTempId problemId now }]

/-- The revert function passed to `setUserProgress` in the catch branch
(Navbar.js lines 122-128): set every record matching `problemId` back to the
captured `completed` value, then drop every record whose own id starts with
`temp-`. -/
def rollback (prev : List ProgressRecord) (problemId : String)
    (completed : Bool) : List ProgressRecord :=
  (prev.map (setCompleted problemId completed)).filter
    (fun progress => !(jsStartsWith progress.recordId "temp-"))

/-- JavaScript `new Set(prev).add(x)` on a duplicate-free list model of the
set. -/
def setAdd (s : List String) (x : String) : List String :=
  if s.contains x then s else s ++ [x]

/-- JavaScript `Set.delete(x)` on the list model of the set. -/
def setDelete (s : List String) (x : String) : List String :=
  s.filter (fun y => y != x)

/-- The component state of `TopicDetail` that the toggle protocol touches:
the `userProgress` array and the `updatingProblems` in-flight set. -/
structure TopicDetailState where
  userProgress : List ProgressRecord
  updatingProblems : List String
deriving DecidableEq, Repr

/-- The state of `TopicDetail` right after the optimistic mutation of
`toggleProblemProgress` (Navbar.js lines 84-111), while the POST is pending:
`problemId` has been added to `updatingProblems` and the optimistic update
(with `!completed`) applied to `userProgress`. -/
def togglePending (s : TopicDetailState) (problemId : String)
    (completed : Bool) (now : Nat) : TopicDetailState :=
  { userProgress := applyOptimistic s.userProgress problemId (!completed) now,
    updatingProblems := setAdd s.updatingProblems problemId }

/-- The whole of `toggleProblemProgress` (Navbar.js lines 84-137), run to
completion.  `completed` is the current value the caller passes, `remoteOk`
tells whether the POST to `/progress/:problemId` succeeded.  Returns the
final state and whether the `progressUpdated` event was dispatched. -/
def toggleProblemProgress (s : TopicDetailState) (problemId : String)
    (completed : Bool) (remoteOk : Bool) (now : Nat) :
    TopicDetailState × Bool :=
  let sp := togglePending s problemId completed now
  if remoteOk then
    ({ userProgress := sp.userProgress,
       updatingProblems := setDelete sp.updatingProblems problemId }, true)
  else
    ({ userProgress := rollback sp.userProgress problemId completed,
       updatingProblems := setDelete sp.updatingProblems problemId }, false)

/-- The checkbox of a problem row (Navbar.js lines 209-215): it is rendered
with `disabled={isUpdating}` and `onChange` calling `toggleProblemProgress`
with the current `isProblemCompleted` value.  A disabled input fires no
change event, so a user interaction on a problem that is in
`updatingProblems` leaves the state untouched and dispatches nothing. -/
def checkboxChange (s : TopicDetailState) (problemId : String)
    (remoteOk : Bool) (now : Nat) : TopicDetailState × Bool :=
  if s.updatingProblems.contains problemId then (s, false)
  else
    toggleProblemProgress s problemId
      (isProblemCompleted s.userProgress problemId) remoteOk now

/-- A problem of a topic; only the identifier `_id` is relevant to the
progress logic, the presentation fields (title, difficulty, tags, links) are
elided. -/
structure Problem where
  pid : String
deriving DecidableEq, Repr

/-- A topic as fetched from `/topics`; presentation fields elided. -/
structure Topic where
  problems : List Problem
deriving DecidableEq, Repr

/-- The `completedProblems` set of Dashboard.js lines 27-32: the ids of
problems having some progress record with `completed` true, built by
`forEach` over `userProgress`. -/
def completedProblems (userProgress : List ProgressRecord) : List String :=
  userProgress.foldl
    (fun acc progress =>
      if progress.completed then setAdd acc progress.problemId else acc) []

/-- Membership in the Dashboard's completed set,
`completedProblems.has(problemId)`: the completion flag Dashboard derives
for a problem (lines 27-41). -/
def dashIsCompleted (userProgress : List ProgressRecord)
    (problemId : String) : Bool :=
  (completedProblems userProgress).contains problemId

/-- A problem as held in `topicsWithProgress` (Dashboard.js lines 35-41):
the problem together with its derived `completed` flag. -/
structure ProblemWithProgress where
  pid : String
  completed : Bool
deriving DecidableEq, Repr

/-- One step of the `topicsWithProgress` map (Dashboard.js lines 37-40):
attach `completed := completedProblems.has(problem._id)`. -/
def withProgress (completedSet : List String) (problem : Problem) :
    ProblemWithProgress :=
  { pid := problem.pid, completed := completedSet.contains problem.pid }

/-- Per-topic statistics as shown by either page. -/
structure TopicStats where
  total : Nat
  completed : Nat
  percentage : Nat
deriving DecidableEq, Repr

/-- Model of `Math.round((completed / total) * 100)` for `total > 0`:
round-half-up of the exact rational `100 * completed / total`. -/
def jsRound100 (completed total : Nat) : Nat :=
  (200 * completed + total) / (2 * total)

/-- Dashboard's per-topic statistics (Dashboard.js lines 197-199), computed
from the topic's `ProblemWithProgress` list: count, count of `completed`,
and the guarded rounded percentage. -/
def dashTopicStats (topicProblems : List ProblemWithProgress) : TopicStats :=
  let totalProblems := topicProblems.length
  let completedCount := (topicProblems.filter (fun p => p.completed)).length
  { total := totalProblems, completed := completedCount,
    percentage :=
      if totalProblems > 0 then jsRound100 completedCount totalProblems
      else 0 }

/-- TopicDetail's per-topic statistics (Navbar.js lines 163-167): count of
the topic's problems with `isProblemCompleted`, the total, and the guarded
rounded percentage. -/
def topicDetailStats (problems : List Problem)
    (userProgress : List ProgressRecord) : TopicStats :=
  let completedCount :=
    (problems.filter (fun problem =>
      isProblemCompleted userProgress problem.pid)).length
  let totalProblems := problems.length
  { total := totalProblems, completed := completedCount,
    percentage :=
      if totalProblems > 0 then jsRound100 completedCount totalProblems
      else 0 }

/-- The global stats payload `{total, completed, remaining, percentage}`;
the remote payload's fields are arbitrary numbers, hence `Int`. -/
structure Stats where
  total : Int
  completed : Int
  remaining : Int
  percentage : Int
deriving DecidableEq, Repr

/-- The zero stats object that the `.catch` on Dashboard.js line 19
substitutes when the `/progress/stats` request fails. -/
def statsErrorDefault : Stats :=
  { total := 0, completed := 0, remaining := 0, percentage := 0 }

/-- Dashboard.js line 46: `topicsData.reduce((total, topic) => total +
topic.problems.length, 0)`. -/
def totalProblemsOf (topicsData : List Topic) : Nat :=
  topicsData.foldl (fun total topic => total + topic.problems.length) 0

/-- Dashboard.js line 47: `userProgress.filter(p => p.completed).length`. -/
def completedCountOf (userProgress : List ProgressRecord) : Nat :=
  (userProgress.filter (fun p => p.completed)).length

/-- The locally computed global stats (Dashboard.js lines 52-57). -/
def localStats (topicsData : List Topic)
    (userProgress : List ProgressRecord) : Stats :=
  let totalProblems := totalProblemsOf topicsData
  let completedCount := completedCountOf userProgress
  { total := totalProblems, completed := completedCount,
    remaining := (totalProblems : Int) - (completedCount : Int),
    percentage :=
      if totalProblems > 0 then (jsRound100 completedCount totalProblems : Int)
      else 0 }

/-- Dashboard.js lines 49-58: the stats actually displayed.  `statsData` is
`statsResponse.data`, `none` modelling a falsy payload; a failed request is
`some statsErrorDefault` by the line-19 catch. -/
def chooseStats (statsData : Option Stats) (topicsData : List Topic)
    (userProgress : List ProgressRecord) : Stats :=
  match statsData with
  | some d =>
      if d.total > 0 then d else localStats topicsData userProgress
  | none => localStats topicsData userProgress

/-- Modelled from the spec's words for claim C1 ("the completed flag of the
last record in the sequence whose problem identifier matches"):
last-write-wins reading of the store query, for comparison with the code's
`isProblemCompleted`. -/
def specLastIsCompleted (records : List ProgressRecord)
    (problemId : String) : Bool :=
  match records.reverse.find? (fun p => p.problemId == problemId) with
  | some p => p.completed
  | none => false

/-- First-write-wins reading of the store query, written as a structural
recursion independent of `List.find?`; the amended claim C1 states that the
code's `isProblemCompleted` computes this. -/
def specFirstIsCompleted : List ProgressRecord → String → Bool
  | [], _ => false
  | r :: rs, problemId =>
      if r.problemId == problemId then r.completed
      else specFirstIsCompleted rs problemId

/-- Modelled from claim C8's words ("the sum over all fetched topics of the
count of that topic's problems P with store.isCompleted(P) true"), for
comparison with the code's record-counting `completedCountOf`. -/
def specGlobalCompleted (topicsData : List Topic)
    (userProgress : List ProgressRecord) : Nat :=
  (topicsData.map (fun topic =>
    (topic.problems.filter (fun problem =>
      isProblemCompleted userProgress problem.pid)).length)).sum

/-! ## Helper lemmas -/

theorem charsStartWith_append (p s : List Char) :
    charsStartWith (p ++ s) p = true := by
  induction p with
  | nil => cases s <;> rfl
  | cons c cs ih => simp [charsStartWith, ih]

theorem string_toList_append (s t : String) :
    (s ++ t).toList = s.toList ++ t.toList := by
  simp

theorem mkTempId_starts (problemId : String) (now : Nat) :
    jsStartsWith (mkTempId problemId now) "temp-" = true := by
  unfold jsStartsWith mkTempId
  rw [string_toList_append, string_toList_append, string_toList_append,
    List.append_assoc, List.append_assoc]
  exact charsStartWith_append _ _

theorem setCompleted_problemId (problemId : String) (c : Bool)
    (r : ProgressRecord) :
    (setCompleted problemId c r).problemId = r.problemId := by
  unfold setCompleted; split <;> rfl

theorem setCompleted_recordId (problemId : String) (c : Bool)
    (r : ProgressRecord) :
    (setCompleted problemId c r).recordId = r.recordId := by
  unfold setCompleted; split <;> rfl

theorem setCompleted_comp (problemId : String) (c₁ c₂ : Bool)
    (r : ProgressRecord) :
    setCompleted problemId c₂ (setCompleted problemId c₁ r)
      = setCompleted problemId c₂ r := by
  unfold setCompleted
  by_cases h : (r.problemId == problemId) = true <;> simp [h]

theorem isProblemCompleted_cons (r : ProgressRecord)
    (rs : List ProgressRecord) (problemId : String) :
    isProblemCompleted (r :: rs) problemId
      = if r.problemId == problemId then r.completed
        else isProblemCompleted rs problemId := by
  unfold isProblemCompleted
  rw [List.find?_cons]
  cases h : r.problemId == problemId <;> simp

theorem isProblemCompleted_map_setCompleted_ne (l : List ProgressRecord)
    (problemId q : String) (c : Bool) (hne : q ≠ problemId) :
    isProblemCompleted (l.map (setCompleted problemId c)) q
      = isProblemCompleted l q := by
  induction l with
  | nil => rfl
  | cons r rs ih =>
      rw [List.map_cons, isProblemCompleted_cons, isProblemCompleted_cons,
        setCompleted_problemId, ih]
      by_cases hq : (r.problemId == q) = true
      · have hp : (r.problemId == problemId) = false := by
          rw [beq_iff_eq] at hq
          rw [beq_eq_false_iff_ne, hq]
          exact hne
        rw [if_pos hq, if_pos hq]
        unfold setCompleted
        rw [if_neg (by simp [hp])]
      · rw [if_neg (by simp [hq]), if_neg (by simp [hq])]

theorem isProblemCompleted_map_setCompleted_self (l : List ProgressRecord)
    (problemId : String) (c : Bool) :
    isProblemCompleted (l.map (setCompleted problemId c)) problemId
      = if (l.find? (fun p => p.problemId == problemId)).isSome then c
        else false := by
  induction l with
  | nil => rfl
  | cons r rs ih =>
      rw [List.map_cons, isProblemCompleted_cons, setCompleted_problemId,
        List.find?_cons]
      cases h : r.problemId == problemId
      · simpa using ih
      · unfold setCompleted
        simp [h]

theorem map_setCompleted_eq_self (l : List ProgressRecord)
    (problemId : String) (c : Bool)
    (h : ∀ r ∈ l, (r.problemId == problemId) = false) :
    l.map (setCompleted problemId c) = l := by
  induction l with
  | nil => rfl
  | cons r rs ih =>
      rw [List.map_cons,
        ih (fun x hx => h x (List.mem_cons_of_mem _ hx))]
      unfold setCompleted
      rw [if_neg (by simp [h r (List.mem_cons_self r rs)])]

theorem filter_nonTemp_eq_self (l : List ProgressRecord)
    (h : ∀ r ∈ l, jsStartsWith r.recordId "temp-" = false) :
    l.filter (fun progress => !(jsStartsWith progress.recordId "temp-")) = l :=
  List.filter_eq_self.mpr (fun r hr => by simp [h r hr])

theorem rollback_eq_map (l : List ProgressRecord) (problemId : String)
    (c : Bool) (h : ∀ r ∈ l, jsStartsWith r.recordId "temp-" = false) :
    rollback l problemId c = l.map (setCompleted problemId c) := by
  unfold rollback
  refine filter_nonTemp_eq_self _ (fun r hr => ?_)
  obtain ⟨r₀, hr₀, rfl⟩ := List.mem_map.mp hr
  rw [setCompleted_recordId]
  exact h r₀ hr₀

theorem isProblemCompleted_false_of (l : List ProgressRecord)
    (problemId : String)
    (h : ∀ r ∈ l, (r.problemId == problemId) = true → r.completed = false) :
    isProblemCompleted l problemId = false := by
  unfold isProblemCompleted
  cases hf : l.find? (fun p => p.problemId == problemId) with
  | none => rfl
  | some r =>
      have hp := List.find?_some hf
      exact h r (List.mem_of_find?_eq_some hf) hp

theorem rollback_self_false (l : List ProgressRecord) (problemId : String) :
    isProblemCompleted (rollback l problemId false) problemId = false := by
  refine isProblemCompleted_false_of _ _ (fun r hr hmatch => ?_)
  unfold rollback at hr
  have hr2 := (List.mem_filter.mp hr).1
  obtain ⟨r₀, hr₀, rfl⟩ := List.mem_map.mp hr2
  unfold setCompleted at hmatch ⊢
  by_cases h0 : (r₀.problemId == problemId) = true
  · rw [if_pos h0]
  · rw [if_neg h0] at hmatch ⊢
    exact absurd hmatch h0

theorem setAdd_contains (l : List String) (x : String) :
    (setAdd l x).contains x = true := by
  unfold setAdd
  by_cases h : l.contains x = true
  · rw [if_pos h]; exact h
  · rw [if_neg h]
    simp [List.contains_eq_any_beq, List.any_append]

theorem setDelete_contains (l : List String) (x : String) :
    (setDelete l x).contains x = false := by
  unfold setDelete
  rw [Bool.eq_false_iff]
  intro hc
  have hm : x ∈ l.filter (fun y => y != x) := by
    simpa using hc
  have := (List.mem_filter.mp hm).2
  simp at this

theorem setAdd_contains_iff (l : List String) (x y : String) :
    (setAdd l x).contains y = (l.contains y || y == x) := by
  unfold setAdd
  by_cases h : l.contains x = true
  · rw [if_pos h]
    by_cases hyx : (y == x) = true
    · have hxy : y = x := beq_iff_eq.mp hyx
      rw [hyx, Bool.or_true, hxy, h]
    · have hyx2 : (y == x) = false := Bool.eq_false_iff.mpr hyx
      rw [hyx2, Bool.or_false]
  · rw [if_neg h]
    by_cases hyx : y = x <;>
      simp [List.contains_eq_any_beq, List.any_append, hyx]

theorem completedProblems_foldl (up : List ProgressRecord)
    (acc : List String) (pid : String) :
    (up.foldl (fun acc progress =>
        if progress.completed then setAdd acc progress.problemId else acc)
      acc).contains pid
      = (acc.contains pid
          || up.any (fun r => r.problemId == pid && r.completed)) := by
  induction up generalizing acc with
  | nil => simp
  | cons r rs ih =>
      rw [List.foldl_cons, List.any_cons]
      cases hc : r.completed
      · rw [show (if false = true then setAdd acc r.problemId else acc)
              = acc from if_neg (by simp),
          ih, Bool.and_false, Bool.false_or]
      · rw [show (if true = true then setAdd acc r.problemId else acc)
              = setAdd acc r.problemId from if_pos rfl,
          ih, setAdd_contains_iff, Bool.and_true, Bool.or_assoc]
        by_cases hb : pid = r.problemId
        · simp [hb]
        · have h1 : (pid == r.problemId) = false := beq_eq_false_iff_ne.mpr hb
          have h2 : (r.problemId == pid) = false :=
            beq_eq_false_iff_ne.mpr (fun he => hb he.symm)
          rw [h1, h2, Bool.false_or]

theorem dashIsCompleted_any (up : List ProgressRecord) (pid : String) :
    dashIsCompleted up pid
      = up.any (fun r => r.problemId == pid && r.completed) := by
  unfold dashIsCompleted completedProblems
  rw [completedProblems_foldl]
  simp

theorem dash_eq_first (up : List ProgressRecord)
    (h : (up.map (fun r => r.problemId)).Nodup) (pid : String) :
    dashIsCompleted up pid = isProblemCompleted up pid := by
  rw [dashIsCompleted_any]
  induction up with
  | nil => rfl
  | cons r rs ih =>
      rw [List.map_cons, List.nodup_cons] at h
      rw [List.any_cons, isProblemCompleted_cons]
      by_cases hm : (r.problemId == pid) = true
      · rw [if_pos hm, hm, Bool.true_and]
        have hpid : r.problemId = pid := beq_iff_eq.mp hm
        have hnone : rs.any (fun x => x.problemId == pid && x.completed)
            = false := by
          rw [List.any_eq_false]
          intro x hx
          have hne : x.problemId ≠ pid := by
            intro he
            exact h.1 (List.mem_map.mpr ⟨x, hx, by rw [he, hpid]⟩)
          simp [hne]
        rw [hnone, Bool.or_false]
      · have hm2 : (r.problemId == pid) = false := Bool.eq_false_iff.mpr hm
        rw [if_neg hm, hm2, Bool.false_and, Bool.false_or]
        exact ih h.2

theorem foldl_add_length (l : List Topic) (n : Nat) :
    l.foldl (fun total topic => total + topic.problems.length) n
      = n + (l.map (fun t => t.problems.length)).sum := by
  induction l generalizing n with
  | nil => simp
  | cons t ts ih => simp [ih, Nat.add_assoc]

theorem totalProblemsOf_eq (topicsData : List Topic) :
    totalProblemsOf topicsData
      = (topicsData.map (fun t => t.problems.length)).sum := by
  unfold totalProblemsOf
  simpa using foldl_add_length topicsData 0

/-! ## Claims -/

/-- C1, counterexample: loading the two-record sequence
`[{P, completed: true, id "a"}, {P, completed: false, id "b"}]` and querying
`P`, the code's `isProblemCompleted` returns the FIRST record's flag (true),
while the claimed last-write-wins reading returns the last record's flag
(false). -/
theorem c1_counterexample :
    isProblemCompleted
      [⟨"P", true, "a"⟩, ⟨"P", false, "b"⟩] "P" = true ∧
    specLastIsCompleted
      [⟨"P", true, "a"⟩, ⟨"P", false, "b"⟩] "P" = false := by
  decide

/-- C1, amended: for every sequence of ProgressRecords and every problem
identifier, `isProblemCompleted` returns the completed flag of the FIRST
record in the sequence whose problem identifier matches (first-write-wins
for duplicates), and false when no record for that identifier exists. -/
theorem c1_first_write_wins (records : List ProgressRecord)
    (problemId : String) :
    isProblemCompleted records problemId
      = specFirstIsCompleted records problemId := by
  induction records with
  | nil => rfl
  | cons r rs ih =>
      rw [isProblemCompleted_cons]
      unfold specFirstIsCompleted
      rw [ih]

/-- C3, code bug: a record created by a previously successful toggle on `Q`
(which, with no prior record, carries a temporary id) IS removed by a later
failed toggle on the different identifier `P`: after the successful toggle
`isProblemCompleted Q` is true, and after the unrelated failed toggle on `P`
it has become false, because the rollback filter drops every temp-id record
rather than only the one belonging to `P`. -/
theorem c3_code_bug :
    isProblemCompleted
      (toggleProblemProgress ⟨[], []⟩ "Q" false true 0).1.userProgress
      "Q" = true ∧
    isProblemCompleted
      (toggleProblemProgress
        (toggleProblemProgress ⟨[], []⟩ "Q" false true 0).1
        "P" false false 1).1.userProgress
      "Q" = false := by
  decide

/-- C2, counterexample: on a store already holding a temporary record for
`Q` (as left behind by a successful optimistic insert for `Q`), capturing
the pre-state of `P`, applying the optimistic update for `P` and immediately
rolling back is NOT a no-op on the observable completion state: the rollback
filter also removes the unrelated temporary record of `Q`, so
`isProblemCompleted Q` changes from true to false. -/
theorem c2_counterexample :
    isProblemCompleted
      (rollback
        (applyOptimistic [⟨"Q", true, "temp-Q-0"⟩] "P"
          (!(isProblemCompleted [⟨"Q", true, "temp-Q-0"⟩] "P")) 0)
        "P" (isProblemCompleted [⟨"Q", true, "temp-Q-0"⟩] "P"))
      "Q" = false ∧
    isProblemCompleted [⟨"Q", true, "temp-Q-0"⟩] "Q" = true := by
  decide

/-- C2, amended: provided every record already in the store carries a
persisted (non-temporary) identifier, capturing
`previousCompleted = isProblemCompleted P` before mutating, applying the
optimistic update for `P` with `!previousCompleted` and then the code's
rollback for `P` with `previousCompleted` restores the observable completion
state `isProblemCompleted q` for every identifier `q`, in both the case
where a record for `P` exists and the case where none does. -/
theorem c2_roundtrip (up : List ProgressRecord) (problemId : String)
    (now : Nat)
    (h : ∀ r ∈ up, jsStartsWith r.recordId "temp-" = false) (q : String) :
    isProblemCompleted
      (rollback
        (applyOptimistic up problemId (!(isProblemCompleted up problemId))
          now)
        problemId (isProblemCompleted up problemId)) q
      = isProblemCompleted up q := by
  unfold applyOptimistic
  cases hf : up.find? (fun p => p.problemId == problemId) with
  | some r0 =>
      have hmap : ∀ r ∈ up.map
          (setCompleted problemId (!(isProblemCompleted up problemId))),
          jsStartsWith r.recordId "temp-" = false := by
        intro r hr
        obtain ⟨r₀, hr₀, rfl⟩ := List.mem_map.mp hr
        rw [setCompleted_recordId]
        exact h r₀ hr₀
      rw [rollback_eq_map _ _ _ hmap, List.map_map]
      have hcomp :
          setCompleted problemId (isProblemCompleted up problemId)
              ∘ setCompleted problemId (!(isProblemCompleted up problemId))
            = setCompleted problemId (isProblemCompleted up problemId) :=
        funext (fun r => setCompleted_comp _ _ _ r)
      rw [hcomp]
      by_cases hq : q = problemId
      · subst hq
        rw [isProblemCompleted_map_setCompleted_self, hf]
        rfl
      · exact isProblemCompleted_map_setCompleted_ne _ _ _ _ hq
  | none =>
      have hnone : ∀ r ∈ up, (r.problemId == problemId) = false := by
        intro r hr
        have := List.find?_eq_none.mp hf r hr
        exact Bool.eq_false_iff.mpr this
      unfold rollback
      rw [List.map_append, List.filter_append,
        map_setCompleted_eq_self _ _ _ hnone,
        filter_nonTemp_eq_self _ h]
      have hrec : setCompleted problemId (isProblemCompleted up problemId)
          ({ problemId := problemId,
             completed := !(isProblemCompleted up problemId),
             recordId := mkTempId problemId now } : ProgressRecord)
          = { problemId := problemId,
              completed := isProblemCompleted up problemId,
              recordId := mkTempId problemId now } := by
        unfold setCompleted
        rw [if_pos (by simp)]
      rw [List.map_cons, List.map_nil, hrec]
      have hdrop :
          List.filter
            (fun progress : ProgressRecord =>
              !(jsStartsWith progress.recordId "temp-"))
            [{ problemId := problemId,
               completed := isProblemCompleted up problemId,
               recordId := mkTempId problemId now }]
          = [] := by
        rw [List.filter_cons]
        rw [show (!(jsStartsWith
            ({ problemId := problemId,
               completed := isProblemCompleted up problemId,
               recordId := mkTempId problemId now } :
              ProgressRecord).recordId "temp-")) = false by
          simp [mkTempId_starts]]
        rfl
      rw [hdrop, List.append_nil]

/-- C2, witness: the round-trip theorem applied at a concrete store with a
persisted record. -/
theorem c2_roundtrip_witness :
    isProblemCompleted
      (rollback
        (applyOptimistic [⟨"Q", true, "a"⟩] "Q"
          (!(isProblemCompleted [⟨"Q", true, "a"⟩] "Q")) 5)
        "Q" (isProblemCompleted [⟨"Q", true, "a"⟩] "Q"))
      "Q" = isProblemCompleted [⟨"Q", true, "a"⟩] "Q" :=
  c2_roundtrip [⟨"Q", true, "a"⟩] "Q" 5 (by decide) "Q"

/-- C4, counterexample: when a toggle request for a problem that is already
in the in-flight set reaches `toggleProblemProgress`, the store IS changed a
second time (the function has no guard), and no error value of any kind is
returned — there is no OperationInProgress error in the code. -/
theorem c4_counterexample :
    (toggleProblemProgress ⟨[⟨"P", true, "a"⟩], ["P"]⟩ "P" true true
        0).1.userProgress
      ≠ [⟨"P", true, "a"⟩] := by
  decide

/-- C4, amended: a re-entrant toggle on a problem already in the in-flight
set is suppressed at the UI layer — the checkbox is rendered disabled, so
the interaction leaves the state unchanged and fires nothing; no
OperationInProgress error value exists anywhere in the code. -/
theorem c4_ui_guard (s : TopicDetailState) (problemId : String)
    (remoteOk : Bool) (now : Nat)
    (h : s.updatingProblems.contains problemId = true) :
    checkboxChange s problemId remoteOk now = (s, false) := by
  unfold checkboxChange
  rw [if_pos h]

/-- C4, witness for the amended theorem. -/
theorem c4_ui_guard_witness :
    checkboxChange ⟨[⟨"P", true, "a"⟩], ["P"]⟩ "P" true 0
      = (⟨[⟨"P", true, "a"⟩], ["P"]⟩, false) :=
  c4_ui_guard ⟨[⟨"P", true, "a"⟩], ["P"]⟩ "P" true 0 (by decide)

/-- C5: the progressUpdated notification is dispatched exactly on remote
success, and when a problem starts incomplete and the remote call fails,
after the toggle resolves the problem is incomplete again and no
notification was dispatched. -/
theorem c5_failure_rollback (s : TopicDetailState) (problemId : String)
    (now : Nat) :
    (∀ (completed remoteOk : Bool) (n : Nat),
      (toggleProblemProgress s problemId completed remoteOk n).2
        = remoteOk) ∧
    (isProblemCompleted s.userProgress problemId = false →
      isProblemCompleted
        (toggleProblemProgress s problemId
          (isProblemCompleted s.userProgress problemId) false
          now).1.userProgress problemId = false ∧
      (toggleProblemProgress s problemId
        (isProblemCompleted s.userProgress problemId) false now).2
        = false) := by
  constructor
  · intro completed remoteOk n
    cases remoteOk <;> rfl
  · intro h
    rw [h]
    exact ⟨rollback_self_false _ _, rfl⟩

/-- C5, witness: toggling an absent (hence incomplete) problem with a
failing remote call. -/
theorem c5_failure_rollback_witness :
    isProblemCompleted
      (toggleProblemProgress ⟨[], []⟩ "P"
        (isProblemCompleted ([] : List ProgressRecord) "P") false
        0).1.userProgress "P" = false :=
  ((c5_failure_rollback ⟨[], []⟩ "P" 0).2 (by decide)).1

/-- C6: for every toggle invocation, the problem identifier is in the
in-flight set in the pending state (after the optimistic mutation, while
the remote call is outstanding), and once the toggle resolves — with remote
success or remote failure — it is no longer in the in-flight set. -/
theorem c6_inflight (s : TopicDetailState) (problemId : String)
    (completed remoteOk : Bool) (now : Nat) :
    (togglePending s problemId completed now).updatingProblems.contains
        problemId = true ∧
    (toggleProblemProgress s problemId completed remoteOk
        now).1.updatingProblems.contains problemId = false := by
  constructor
  · exact setAdd_contains _ _
  · cases remoteOk <;> exact setDelete_contains _ _

/-- C7: the displayed global statistics are the remote precomputed stats
exactly when the remote payload is present with a strictly positive total;
when the payload is absent, has a non-positive total, or the request
errored (which the catch turns into the zero payload), the locally computed
figures are displayed. -/
theorem c7_stats_preference (statsData : Option Stats)
    (topicsData : List Topic) (userProgress : List ProgressRecord) :
    (∀ d : Stats, statsData = some d → d.total > 0 →
      chooseStats statsData topicsData userProgress = d) ∧
    (statsData = none →
      chooseStats statsData topicsData userProgress
        = localStats topicsData userProgress) ∧
    (∀ d : Stats, statsData = some d → ¬ d.total > 0 →
      chooseStats statsData topicsData userProgress
        = localStats topicsData userProgress) ∧
    chooseStats (some statsErrorDefault) topicsData userProgress
      = localStats topicsData userProgress := by
  refine ⟨?_, ?_, ?_, ?_⟩
  · rintro d rfl hd
    simp only [chooseStats]
    rw [if_pos hd]
  · rintro rfl
    rfl
  · rintro d rfl hd
    simp only [chooseStats]
    rw [if_neg hd]
  · simp only [chooseStats]
    rw [if_neg (by unfold statsErrorDefault; simp)]

/-- C7, witness: a remote payload with positive total is displayed as is; a
zero-total payload falls back to the local computation. -/
theorem c7_stats_preference_witness :
    chooseStats (some ⟨5, 3, 2, 60⟩) [] [] = ⟨5, 3, 2, 60⟩ :=
  (c7_stats_preference (some ⟨5, 3, 2, 60⟩) [] []).1 ⟨5, 3, 2, 60⟩ rfl
    (by decide)

/-- C8, counterexample: the locally computed `completed` figure counts the
progress records with a true flag, not the problems of the fetched topics:
with no topics at all and one completed record, the code reports
`completed = 1` while the sum over all (zero) topics is 0. -/
theorem c8_counterexample :
    (localStats [] [⟨"P", true, "a"⟩]).completed = 1 ∧
    specGlobalCompleted [] [⟨"P", true, "a"⟩] = 0 := by
  decide

/-- C8, amended: in the locally computed global statistics, `total` is the
sum over all fetched topics of the count of that topic's problems,
`completed` is the count of progress RECORDS whose flag is true (not a
per-topic sum), `remaining` is their difference, and the percentage follows
the round-half-up rule — in particular a 6-total, 4-completed input yields
`{total 6, completed 4, remaining 2, percentage 67}`. -/
theorem c8_local_stats (topicsData : List Topic)
    (userProgress : List ProgressRecord) :
    (localStats topicsData userProgress).total
      = (((topicsData.map (fun t => t.problems.length)).sum : Nat) : Int) ∧
    (localStats topicsData userProgress).completed
      = (((userProgress.filter (fun p => p.completed)).length : Nat) : Int) ∧
    (localStats topicsData userProgress).remaining
      = (localStats topicsData userProgress).total
        - (localStats topicsData userProgress).completed ∧
    jsRound100 4 6 = 67 ∧
    localStats
      [⟨[⟨"a1"⟩, ⟨"a2"⟩, ⟨"a3"⟩, ⟨"a4"⟩]⟩, ⟨[⟨"b1"⟩, ⟨"b2"⟩]⟩]
      [⟨"a1", true, "r1"⟩, ⟨"a2", true, "r2"⟩, ⟨"a3", true, "r3"⟩,
       ⟨"b1", true, "r4"⟩]
      = ⟨6, 4, 2, 67⟩ := by
  refine ⟨?_, rfl, rfl, by decide, by decide⟩
  unfold localStats
  rw [totalProblemsOf_eq]

/-- C9, counterexample: for a topic holding problem `P` and a store with two
records for `P` — first incomplete, then complete — Dashboard's per-topic
computation counts `P` as completed (some record is complete) while the
count of problems with `store.isCompleted` true is 0 (the first record
wins), so the claimed equality fails for the Dashboard computation. -/
theorem c9_counterexample :
    (dashTopicStats (([⟨"P"⟩] : List Problem).map (withProgress
        (completedProblems
          [⟨"P", false, "a"⟩, ⟨"P", true, "b"⟩])))).completed = 1 ∧
    (([⟨"P"⟩] : List Problem).filter (fun pr =>
        isProblemCompleted
          [⟨"P", false, "a"⟩, ⟨"P", true, "b"⟩] pr.pid)).length = 0 := by
  decide

/-- C9, amended: TopicDetail's per-topic statistics satisfy the claim
unconditionally — total is the number of the topic's problems, completed the
number of its problems with `isProblemCompleted` true, percentage the
round-half-up rule guarded to 0 on an empty topic; Dashboard's per-topic
statistics satisfy the same equations whenever the store holds at most one
record per problem identifier. -/
theorem c9_topic_stats (problems : List Problem)
    (up : List ProgressRecord) :
    ((topicDetailStats problems up).total = problems.length ∧
     (topicDetailStats problems up).completed
       = (problems.filter (fun pr => isProblemCompleted up pr.pid)).length ∧
     (topicDetailStats problems up).percentage
       = (if problems.length > 0
           then jsRound100
             ((problems.filter
               (fun pr => isProblemCompleted up pr.pid)).length)
             problems.length
           else 0)) ∧
    ((up.map (fun r => r.problemId)).Nodup →
      (dashTopicStats (problems.map
          (withProgress (completedProblems up)))).total = problems.length ∧
      (dashTopicStats (problems.map
          (withProgress (completedProblems up)))).completed
        = (problems.filter (fun pr => isProblemCompleted up pr.pid)).length ∧
      (dashTopicStats (problems.map
          (withProgress (completedProblems up)))).percentage
        = (if problems.length > 0
            then jsRound100
              ((problems.filter
                (fun pr => isProblemCompleted up pr.pid)).length)
              problems.length
            else 0)) := by
  constructor
  · exact ⟨rfl, rfl, rfl⟩
  · intro h
    have hlen : (problems.map (withProgress (completedProblems up))).length
        = problems.length := List.length_map _ _
    have hfil :
        ((problems.map (withProgress (completedProblems up))).filter
            (fun p => p.completed)).length
          = (problems.filter
              (fun pr => isProblemCompleted up pr.pid)).length := by
      rw [List.filter_map, List.length_map]
      congr 1
      refine List.filter_congr (fun pr _ => ?_)
      show (withProgress (completedProblems up) pr).completed
        = isProblemCompleted up pr.pid
      unfold withProgress
      exact dash_eq_first up h pr.pid
    refine ⟨?_, ?_, ?_⟩
    · exact hlen
    · show ((problems.map (withProgress (completedProblems up))).filter
          (fun p => p.completed)).length
        = (problems.filter (fun pr => isProblemCompleted up pr.pid)).length
      exact hfil
    · show (if (problems.map (withProgress (completedProblems up))).length > 0
          then jsRound100
            (((problems.map (withProgress (completedProblems up))).filter
              (fun p => p.completed)).length)
            ((problems.map (withProgress (completedProblems up))).length)
          else 0) = _
      rw [hlen, hfil]

/-- C9, witness for the amended theorem at a concrete topic and store. -/
theorem c9_topic_stats_witness :
    (dashTopicStats (([⟨"P"⟩] : List Problem).map
        (withProgress (completedProblems [⟨"P", true, "r"⟩])))).completed
      = (([⟨"P"⟩] : List Problem).filter (fun pr =>
          isProblemCompleted [⟨"P", true, "r"⟩] pr.pid)).length :=
  ((c9_topic_stats ([⟨"P"⟩] : List Problem) [⟨"P", true, "r"⟩]).2 (by decide)).2.1

/-- C10, counterexample: on the record list with an incomplete then a
complete record for `P`, Dashboard's derived completion flag for `P` is true
while TopicDetail's `isProblemCompleted` is false — the two derivations are
not extensionally equal. -/
theorem c10_counterexample :
    dashIsCompleted [⟨"P", false, "a"⟩, ⟨"P", true, "b"⟩] "P" = true ∧
    isProblemCompleted [⟨"P", false, "a"⟩, ⟨"P", true, "b"⟩] "P"
      = false := by
  decide

/-- C10, amended: on every record list holding at most one record per
problem identifier, Dashboard's derived completion flag (some record for the
problem is complete) agrees with TopicDetail's `isProblemCompleted` (first
record for the problem, false if none) at every problem identifier. -/
theorem c10_agree_nodup (up : List ProgressRecord)
    (h : (up.map (fun r => r.problemId)).Nodup) (pid : String) :
    dashIsCompleted up pid = isProblemCompleted up pid :=
  dash_eq_first up h pid

/-- C10, witness for the amended theorem. -/
theorem c10_agree_nodup_witness :
    dashIsCompleted [⟨"P", true, "a"⟩, ⟨"Q", false, "b"⟩] "P"
      = isProblemCompleted [⟨"P", true, "a"⟩, ⟨"Q", false, "b"⟩] "P" :=
  c10_agree_nodup [⟨"P", true, "a"⟩, ⟨"Q", false, "b"⟩] (by decide) "P"
